import Mathlib

/-!
Verification of the BRASS spend-verification pipeline against its
natural-language specification.

The development shallowly embeds the repository's counter-store adapters
(`worker/adapters/kv-store.js`, `worker/adapters/durable-object-store.js`),
the DLEQ verifier (`worker/deterministic-verifier.js`, `dleqVerify` and the
piC call site) and the spend handler (`worker/deterministic-verifier.js`,
`fetch`).  JavaScript objects with optional fields are modelled as
structures of `Option`-typed fields (a missing JSON field is `none`);
storage namespaces are modelled as functions from string keys to optional
entries; `JSON.stringify`/`JSON.parse` round-trips of the small decision
records the adapters persist are modelled as the identity on a typed value.
-/

namespace Brass

/-- Byte strings (outputs of hashes, decoded base64url, etc.). -/
abbrev Bytes := List Nat

/-- A spend decision as the adapters build and persist it.
JavaScript objects carry only the fields assigned to them; absent fields
are `none`.  `{ ok:true, remaining }` is `⟨some true, some r, none, none⟩`,
`{ ok:false, error:"limit_exceeded", remaining:0 }` is
`⟨some false, some 0, some "limit_exceeded", none⟩`. -/
structure SpendResult where
  ok : Option Bool := none
  remaining : Option Nat := none
  error : Option String := none
  idempotent : Option Bool := none
deriving DecidableEq

/-- A value stored in a key-value namespace: the adapters store either a
stringified integer counter (`String(count)` / a raw number in the Durable
Object) or a JSON-serialized decision record. -/
inductive StoredValue where
  | count (n : Nat)
  | resp (r : SpendResult)
deriving DecidableEq

/-- One stored entry together with the `expirationTtl` option passed to
`put` (`none` when the source's `put` call passes no TTL option). -/
structure Entry where
  val : StoredValue
  ttl : Option Nat
deriving DecidableEq

/-- A key-value namespace (Cloudflare KV, or one Durable Object's
storage): a partial map from string keys to entries. -/
abbrev KV := String → Option Entry

/-- `put` with overwrite, recording the TTL option of the call. -/
def kvPut (kv : KV) (k : String) (e : Entry) : KV :=
  fun k' => if k' = k then some e else kv k'

/-- Reading a counter: `parseInt(await get(key) || '0', 10)`.  A missing
entry reads as 0.  (A decision record under a counter key never occurs in
the adapters' own writes; it is read as 0 here.) -/
def getCount (kv : KV) (k : String) : Nat :=
  match kv k with
  | some e => match e.val with | .count n => n | .resp _ => 0
  | none => 0

/-- `JSON.parse` of a stored value at a decision key followed by object
spread.  Spreading a parsed number yields an object with no fields, which
is the all-`none` record here; a stored decision parses back to itself. -/
def asResp (v : StoredValue) : SpendResult :=
  match v with
  | .resp r => r
  | .count _ => {}

/-- JavaScript `x || d` on an optional string (`undefined` and `""` are
falsy). -/
def jsOrStr (o : Option String) (d : String) : String :=
  match o with
  | some s => if s = "" then d else s
  | none => d

/-- JavaScript `x || d` on an optional number (`undefined` and `0` are
falsy). -/
def jsOrNat (o : Option Nat) (d : Nat) : Nat :=
  match o with
  | some n => if n = 0 then d else n
  | none => d

/-- The `key` argument of `spend` (all components are strings by the time
they reach the store; `epoch` and `window` are stringified day numbers). -/
structure CounterKeyParts where
  projectId : String
  issuerPk : String
  origin : String
  epoch : String
  policy : String
  window : String
  y : String
deriving DecidableEq

/-- Modelled from the spec: `worker/shared/storage-interface.js` is not in
the source tree; §4.4/§6 of the spec fix the serialized counter key as the
pipe-separated components with a mandatory `project:` prefix, and the
repository's storage test pins the exact string
`project:<pid>|<pk>|<origin>|<epoch>|<policy>|<window>|<y>`. -/
def buildCounterKey (k : CounterKeyParts) : String :=
  "project:" ++ k.projectId ++ "|" ++ k.issuerPk ++ "|" ++ k.origin ++ "|" ++
    k.epoch ++ "|" ++ k.policy ++ "|" ++ k.window ++ "|" ++ k.y

/-- Modelled from the spec: the legacy pre-namespaced counter key (the
same serialized key without the `project:<pid>` component), used only by
the migration fallback. -/
def buildLegacyCounterKey (k : CounterKeyParts) : String :=
  k.issuerPk ++ "|" ++ k.origin ++ "|" ++ k.epoch ++ "|" ++ k.policy ++ "|" ++
    k.window ++ "|" ++ k.y

/-- Both adapters' constructors set `this.enableMigrationFallback = true`. -/
def enableMigrationFallback : Bool := true

/-- Result of `guardGrace`: `{ hit: true, response } | { hit: false }`. -/
structure GuardResult where
  hit : Bool
  response : Option SpendResult
deriving DecidableEq

namespace KVStore

/-- `KVStore.spend` (worker/adapters/kv-store.js).  Returns the response
and the updated namespace.  `remaining := limit - newCount` uses truncated
natural subtraction, which coincides with `Math.max(0, limit - newCount)`
on the non-negative integers the source manipulates. -/
def spend (kv : KV) (key : CounterKeyParts) (IK : String)
    (limit ttlSeconds : Nat) : SpendResult × KV :=
  let counterKey := buildCounterKey key
  let ikKey := "ik:project:" ++ key.projectId ++ ":" ++ IK
  match kv ikKey with
  | some e =>
    ({ asResp e.val with idempotent := some true }, kv)
  | none =>
    let countKey := "count:" ++ counterKey
    let c0 := getCount kv countKey
    let step :=
      if c0 = 0 ∧ enableMigrationFallback then
        let legacyCount := getCount kv ("count:" ++ buildLegacyCounterKey key)
        if legacyCount > 0 then
          (legacyCount, kvPut kv countKey ⟨.count legacyCount, some ttlSeconds⟩)
        else (c0, kv)
      else (c0, kv)
    let currentCount := step.1
    let kv1 := step.2
    if currentCount ≥ limit then
      let failureResponse : SpendResult :=
        { ok := some false, error := some "limit_exceeded", remaining := some 0 }
      (failureResponse, kvPut kv1 ikKey ⟨.resp failureResponse, some ttlSeconds⟩)
    else
      let newCount := currentCount + 1
      let remaining := limit - newCount
      let successResponse : SpendResult := { ok := some true, remaining := some remaining }
      (successResponse,
        kvPut (kvPut kv1 countKey ⟨.count newCount, some ttlSeconds⟩)
          ikKey ⟨.resp successResponse, some ttlSeconds⟩)

/-- `KVStore.guardGrace`: read-only lookup of the namespaced grace key. -/
def guardGrace (kv : KV) (projectId graceKey : String) (_ttlSeconds : Nat) :
    GuardResult :=
  let key := "grace:project:" ++ projectId ++ ":" ++ graceKey
  match kv key with
  | some e => { hit := true, response := some (asResp e.val) }
  | none => { hit := false, response := none }

/-- `KVStore.cacheGraceResponse`: best-effort SETNX — read before write,
store only when absent. -/
def cacheGraceResponse (kv : KV) (projectId graceKey : String)
    (ttlSeconds : Nat) (response : SpendResult) : KV :=
  let key := "grace:project:" ++ projectId ++ ":" ++ graceKey
  match kv key with
  | some _ => kv
  | none => kvPut kv key ⟨.resp response, some ttlSeconds⟩

end KVStore

/-- A Durable Object HTTP reply: status plus JSON body (a decision). -/
structure DOResp where
  status : Nat
  body : SpendResult
deriving DecidableEq

namespace BrassCounterDO

/-- `BrassCounterDO.handleSpend` (worker/adapters/durable-object-store.js,
included verbatim in the repo's test file): the atomic counter logic of
one Durable Object instance.  The replay branch returns the cached
decision with its original status (`cached.ok ? 200 : 429`); the
migration fallback `put('count', legacyCount)` passes no TTL option. -/
def handleSpend (inst : KV) (projectId IK : String)
    (limit ttlSeconds : Nat) : DOResp × KV :=
  let ikKey := "ik:project:" ++ projectId ++ ":" ++ IK
  match inst ikKey with
  | some e =>
    let cached := asResp e.val
    ({ status := if cached.ok.getD false then 200 else 429,
       body := { cached with idempotent := some true } }, inst)
  | none =>
    let c0 := getCount inst "count"
    let step :=
      if c0 = 0 ∧ enableMigrationFallback then
        let legacyCount := getCount inst "legacy_count"
        if legacyCount > 0 then
          (legacyCount, kvPut inst "count" ⟨.count legacyCount, none⟩)
        else (c0, inst)
      else (c0, inst)
    let count := step.1
    let inst1 := step.2
    if count ≥ limit then
      let failureResponse : SpendResult :=
        { ok := some false, error := some "limit_exceeded", remaining := some 0 }
      ({ status := 429, body := failureResponse },
        kvPut inst1 ikKey ⟨.resp failureResponse, some ttlSeconds⟩)
    else
      let count1 := count + 1
      let remaining := limit - count1
      let successResponse : SpendResult := { ok := some true, remaining := some remaining }
      ({ status := 200, body := successResponse },
        kvPut (kvPut inst1 "count" ⟨.count count1, some ttlSeconds⟩)
          ikKey ⟨.resp successResponse, some ttlSeconds⟩)

/-- `BrassCounterDO.handleGraceCheck`: read-only grace lookup. -/
def handleGraceCheck (inst : KV) (projectId graceKey : String) : GuardResult :=
  let key := "grace:project:" ++ projectId ++ ":" ++ graceKey
  match inst key with
  | some e => { hit := true, response := some (asResp e.val) }
  | none => { hit := false, response := none }

/-- `BrassCounterDO.handleGraceCache`: atomic SETNX — set only if not
present. -/
def handleGraceCache (inst : KV) (projectId graceKey : String)
    (ttlSeconds : Nat) (response : SpendResult) : KV :=
  let key := "grace:project:" ++ projectId ++ ":" ++ graceKey
  match inst key with
  | some _ => inst
  | none => kvPut inst key ⟨.resp response, some ttlSeconds⟩

end BrassCounterDO

/-- The Durable Object namespace: one storage map per object name
(`idFromName`); an instance that was never written reads all-empty. -/
abbrev DOState := String → KV

/-- Replace the storage of one Durable Object instance. -/
def dosPut (dos : DOState) (name : String) (inst : KV) : DOState :=
  fun n' => if n' = name then inst else dos n'

namespace DurableObjectStore

/-- `DurableObjectStore.spend`: routes to the object named by the counter
key and forwards; a non-2xx reply (`!response.ok`) is collapsed to
`{ ok:false, error: error.error || 'unknown_error' }`.  The internal HTTP
hop between adapter and object is modelled as a direct call. -/
def spend (dos : DOState) (key : CounterKeyParts) (IK : String)
    (limit ttlSeconds : Nat) : SpendResult × DOState :=
  let name := buildCounterKey key
  let r := BrassCounterDO.handleSpend (dos name) key.projectId IK limit ttlSeconds
  let dos2 := dosPut dos name r.2
  if 200 ≤ r.1.status ∧ r.1.status ≤ 299 then (r.1.body, dos2)
  else ({ ok := some false, error := some (jsOrStr r.1.body.error "unknown_error") }, dos2)

/-- `DurableObjectStore.guardGrace`: routes to the grace object
`grace:<projectId>:<graceKey>` and checks. -/
def guardGrace (dos : DOState) (projectId graceKey : String)
    (_ttlSeconds : Nat) : GuardResult :=
  let name := "grace:" ++ projectId ++ ":" ++ graceKey
  BrassCounterDO.handleGraceCheck (dos name) projectId graceKey

/-- `DurableObjectStore.cacheGraceResponse`: routes to the grace object
and caches (set-if-absent inside the object). -/
def cacheGraceResponse (dos : DOState) (projectId graceKey : String)
    (ttlSeconds : Nat) (response : SpendResult) : DOState :=
  let name := "grace:" ++ projectId ++ ":" ++ graceKey
  dosPut dos name
    (BrassCounterDO.handleGraceCache (dos name) projectId graceKey ttlSeconds response)

end DurableObjectStore

/-! DLEQ verifier layer (worker/deterministic-verifier.js).

The P-256 group has prime order `n`; the verifier only uses scalar
multiplication, point addition and the compressed encoding of points.  We
model the group additively as `ℤ/n` through the discrete-log isomorphism
that sends the base point `G` to `1`: a point is a `Nat` (its discrete
logarithm mod `n`), `k·X` is `k * x % n` and `X + Y` is `(x + y) % n`.
The compressed encoding `toRawBytes(true)` (an injective map implemented
by the external noble library) and the SHA-256-based `H3` (defined in
`worker/shared/crypto.js`, which is not in the source tree) are passed as
parameters `enc` and `H3fn`.  `noble`'s `multiply` is defined for scalars
in `[1, n)`; the model extends it by reduction mod `n`, and the theorems
below only instantiate it in range. -/

/-- Order `n` of the P-256 base-point group (`p256.CURVE.n`). -/
def pOrder : Nat :=
  115792089210356248762697446949407573529996955224135760342422259061068512044369

/-- `modN` of the verifier (its argument is non-negative here, so the
negative branch of the source is dead). -/
def modN (x : Nat) : Nat := x % pOrder

/-- `bytesToBig`: big-endian bytes to integer (the source goes through a
hex string; for byte values < 256 this is the same base-256 fold). -/
def bytesToBig (b : Bytes) : Nat := b.foldl (fun acc x => acc * 256 + x) 0

/-- UTF-8 bytes of an ASCII label string. -/
def strBytes (s : String) : Bytes := s.data.map Char.toNat

/-- The base point `G` under the discrete-log isomorphism. -/
def Gpt : Nat := 1

/-- Scalar multiplication `X.multiply(k)` in the `ℤ/n` model. -/
def ptMul (k x : Nat) : Nat := k * x % pOrder

/-- Point addition `X.add(Y)` in the `ℤ/n` model. -/
def ptAdd (a b : Nat) : Nat := (a + b) % pOrder

/-- `dleqVerify` (deterministic-verifier.js lines 65–78): recompute the
Fiat-Shamir challenge over the 8-part transcript and compare the reduced
challenge with the supplied `c` (which the caller does not reduce).  `r`
is a parameter of the source function that the hash does not consume. -/
def dleqVerify (H3fn : List Bytes → Bytes) (enc : Nat → Bytes) (label : String)
    (g1 h1 g2 h2 A1 A2 : Nat) (c r : Nat) (bind : Bytes) : Bool :=
  let challenge := H3fn [strBytes ("BRASS:" ++ label ++ ":"),
    enc g1, enc h1, enc g2, enc h2, enc A1, enc A2, bind]
  let chal := modN (bytesToBig challenge)
  chal == c

/-- The handler's π_C check (deterministic-verifier.js lines 317–330):
`A1c = P·r_C + M·c_C` and, per the source, `A2c = G` — the bare base
point, not a commitment recomputed from `r_C` and `c_C`. -/
def piC_handlerCheck (H3fn : List Bytes → Bytes) (enc : Nat → Bytes)
    (Ppt Mpt cC rC : Nat) (bindC : Bytes) : Bool :=
  let A1c := ptAdd (ptMul rC Ppt) (ptMul cC Mpt)
  let A2c := Gpt
  dleqVerify H3fn enc "OPRF_METERING_DLEQ_v1" Ppt Mpt Gpt Gpt A1c A2c cC rC bindC

/-- The spec's reference verifier equation for π_C, written from the
spec's words (§4.3): reconstruct `A1' = g1^{r}·h1^{c}` and
`A2' = g2^{r}·h2^{c}` with `(g1,h1,g2,h2) = (P,M,G,G)`, recompute
`c' = FS(g1,h1,g2,h2,A1',A2',bind,label)` and accept iff
`c' ≡ c_C (mod n)`. -/
def piC_specCheck (H3fn : List Bytes → Bytes) (enc : Nat → Bytes)
    (Ppt Mpt cC rC : Nat) (bindC : Bytes) : Bool :=
  let A1 := ptAdd (ptMul rC Ppt) (ptMul cC Mpt)
  let A2 := ptAdd (ptMul rC Gpt) (ptMul cC Gpt)
  let challenge := H3fn [strBytes ("BRASS:" ++ "OPRF_METERING_DLEQ_v1" ++ ":"),
    enc Ppt, enc Mpt, enc Gpt, enc Gpt, enc A1, enc A2, bindC]
  modN (bytesToBig challenge) == cC % pOrder

/-! Spend-handler embedding (worker/deterministic-verifier.js, `fetch`).

The handler is embedded as a function of the environment, the request,
the current time and the two storage namespaces.  Crypto primitives that
live outside the handler (the noble curve library and
`worker/shared/crypto.js`, which is not in the source tree) enter as a
record of pure functions `Prims`; point tokens are opaque `Nat`s.  The
body-parse `JSON.parse(bodyText)` is performed by the JS runtime and is
carried on the request as `payloadParse`.  Thrown errors are modelled by
`Except`; the surrounding `try/catch` maps a thrown message `e` to
HTTP 500 with body `{ error: e.message || 'server_error' }`.  Telemetry
emission is fire-and-forget with no effect on the store and is not
modelled. -/

/-- An integer proof pair `(c, r)` as base64url strings on the wire. -/
structure ProofPair where
  c : String
  r : String
deriving DecidableEq

/-- The parsed presentation payload (§3); absent optional JSON fields are
`none`. -/
structure Payload where
  KID : String
  AADr : String
  origin : String
  epoch : Int
  c : String
  Z : String
  Zprime : String
  P : String
  M : String
  piI : ProofPair
  piC : ProofPair
  d_client : Option String
  tls_exporter_b64 : Option String
  http_method : Option String
  http_path : Option String
  http_body_hash_b64 : Option String
deriving DecidableEq

/-- The incoming HTTP request as the handler consumes it. -/
structure Request where
  method : String
  pathname : String
  authorization : Option String
  bodyText : String
  payloadParse : Except String Payload

/-- Result of the API-key lookup
(`{ valid:true, projectId, limit } | { valid:false, error }`). -/
structure LookupResult where
  valid : Bool
  error : Option String
  projectId : String
  limit : Option Nat
deriving DecidableEq

/-- The environment bindings the handler reads.  String-typed numeric
variables are carried as the parsed number (`none` when unset). -/
structure Env where
  BRASS_KV : Bool
  BRASS_USE_ENV_AUTH : Bool
  BRASS_SECRET_KEY : String
  BRASS_PROJECT_ID : Option String
  BRASS_RATE_LIMIT : Option Nat
  BRASS_ISSUER_PUBKEY : String
  BRASS_KV_SECRET : String
  STORAGE_BACKEND : Option String
  BRASS_COUNTER : Bool
  BOUNDARY_GRACE_SECONDS : Option Nat

/-- External pure primitives (noble curve library and
`worker/shared/crypto.js`; the latter is modelled from the spec as an
opaque family of deterministic functions, since only the handler's use of
them — not their internals — decides the claims below). -/
structure Prims where
  lookupApiKey : String → LookupResult
  sha256 : String → Bytes
  b64urlToBytes : String → Bytes
  bytesToB64url : Bytes → String
  H3http : String → String → Bytes → Bytes
  decodePoint : String → Except String Nat
  dleqOkI : Nat → Nat → Nat → Nat → Nat → Bool
  canonicalOrigin : String → Except String String
  currentEpochDays : Nat → String
  parsePolicyId : String → String
  windowId : String → String
  deriveEta : String → String → String → String → String → Bytes
  deriveNullifierY : String → String → String → Bytes → Bytes
  deriveTlsBinding : Option Bytes → Bytes
  H3bind : Bytes → Bytes → Bytes → Bytes → String → String → String → String →
    String → String → Bytes → Bytes
  dleqOkC : Nat → Nat → Nat → Nat → Bytes → Bool
  deriveGraceNullifier : String → String → String → String → String → String →
    String → String → Bytes
  deriveIdempotencyKey : Bytes → Bytes → String → String
  secretToBytes : String → Bytes
  isInGracePeriod : Nat → Nat → Bool
  secondsUntilWindowEnd : String → Nat

/-- Bytewise model of `String.startsWith` (JS `auth.startsWith('Bearer ')`);
the core `String.startsWith` is used on ASCII header values here, where the
character-list comparison coincides with it. -/
def strStarts (s p : String) : Bool :=
  s.data.take p.data.length == p.data

/-- Bytewise model of JS `auth.slice(7)` on ASCII header values. -/
def strDrop (s : String) (n : Nat) : String :=
  String.mk (s.data.drop n)

/-- `ctEqual` (deterministic-verifier.js lines 58–63): length check, then
xor-accumulate. -/
def ctEqual (a b : Bytes) : Bool :=
  if a.length ≠ b.length then false
  else (List.zipWith Nat.xor a b).foldl (fun v x => v.lor x) 0 == 0

/-- A JSON response body; absent fields are `none`. -/
structure RespBody where
  ok : Option Bool := none
  error : Option String := none
  remaining : Option Nat := none
  idempotent : Option Bool := none
  windowUsed : Option String := none
  grace : Option Bool := none
  ts : Option Nat := none
  build : Option String := none
  mode : Option String := none
  strictEnforcement : Option Bool := none
  text : Option String := none
deriving DecidableEq

/-- An HTTP response: status code and JSON body. -/
structure HttpResponse where
  status : Nat
  body : RespBody
deriving DecidableEq

/-- The persistent state both storage backends together: the KV namespace
binding and the Durable Object namespace binding. -/
structure Stores where
  kv : KV
  dos : DOState

/-- Backend dispatch for `store.spend` (`useDO` is the handler's choice
`storageBackend === 'durable_objects' && env.BRASS_COUNTER`). -/
def storeSpend (useDO : Bool) (st : Stores) (key : CounterKeyParts) (IK : String)
    (limit ttl : Nat) : SpendResult × Stores :=
  if useDO then
    let r := DurableObjectStore.spend st.dos key IK limit ttl
    (r.1, { st with dos := r.2 })
  else
    let r := KVStore.spend st.kv key IK limit ttl
    (r.1, { st with kv := r.2 })

/-- Backend dispatch for `store.guardGrace` (read-only). -/
def storeGuardGrace (useDO : Bool) (st : Stores) (pid gk : String) (ttl : Nat) :
    GuardResult :=
  if useDO then DurableObjectStore.guardGrace st.dos pid gk ttl
  else KVStore.guardGrace st.kv pid gk ttl

/-- Backend dispatch for `store.cacheGraceResponse`. -/
def storeCacheGrace (useDO : Bool) (st : Stores) (pid gk : String) (ttl : Nat)
    (response : SpendResult) : Stores :=
  if useDO then
    { st with dos := DurableObjectStore.cacheGraceResponse st.dos pid gk ttl response }
  else
    { st with kv := KVStore.cacheGraceResponse st.kv pid gk ttl response }

/-- The values derived by the handler before it reaches the counter
store (S6 of the spec's state machine). -/
structure SpendCtx where
  projectId : String
  limit : Nat
  originCanonical : String
  epochDays : String
  policyId : String
  window : String
  y : Bytes
  IK : String
  Zprime : String
  KID : String
  AADr : String
  useDO : Bool

/-- Lines 428–511 of deterministic-verifier.js: compute the TTL, call
`store.spend`, cache the result in the grace guard when
`inGracePeriod && !graceHit` (the flag passed here; at both call sites
that reach this code the source's `graceHit` is `false` — either there
was no hit, or a cached denial reset it), and emit the 429/200
response. -/
def doSpendAndRespond (pr : Prims) (env : Env) (ctx : SpendCtx) (inGrace : Bool)
    (bgs : Nat) (st : Stores) : HttpResponse × Stores :=
  let ttlSeconds := pr.secondsUntilWindowEnd ctx.epochDays
  let key : CounterKeyParts :=
    { projectId := ctx.projectId, issuerPk := env.BRASS_ISSUER_PUBKEY,
      origin := ctx.originCanonical, epoch := ctx.epochDays,
      policy := ctx.policyId, window := ctx.window,
      y := pr.bytesToB64url ctx.y }
  let r := storeSpend ctx.useDO st key ctx.IK ctx.limit ttlSeconds
  let result := r.1
  let st2 :=
    if inGrace then
      let yGrace := pr.deriveGraceNullifier ctx.Zprime ctx.KID env.BRASS_ISSUER_PUBKEY
        ctx.originCanonical ctx.policyId "P256_SHA256" "BRASS_v2.0" ctx.AADr
      let graceKey := pr.bytesToB64url yGrace
      storeCacheGrace ctx.useDO r.2 ctx.projectId graceKey bgs result
    else r.2
  if !(result.ok.getD false) then
    ({ status := 429,
       body := { error := result.error, remaining := some (result.remaining.getD 0),
                 windowUsed := some ctx.window } }, st2)
  else
    ({ status := 200,
       body := { ok := some true, remaining := result.remaining,
                 idempotent := some (result.idempotent.getD false),
                 windowUsed := some ctx.window } }, st2)

/-- Lines 354–426 of deterministic-verifier.js: grace-period detection,
grace guard, replay of cached successes, fall-through for cached denials
(the source resets `graceHit` to `false` there), then the spend path. -/
def spendPhase (pr : Prims) (env : Env) (ctx : SpendCtx) (now : Nat) (st : Stores) :
    HttpResponse × Stores :=
  let bgs := (env.BOUNDARY_GRACE_SECONDS).getD 60
  let inGracePeriod := pr.isInGracePeriod now bgs
  if inGracePeriod then
    let yGrace := pr.deriveGraceNullifier ctx.Zprime ctx.KID env.BRASS_ISSUER_PUBKEY
      ctx.originCanonical ctx.policyId "P256_SHA256" "BRASS_v2.0" ctx.AADr
    let graceKey := pr.bytesToB64url yGrace
    let guard := storeGuardGrace ctx.useDO st ctx.projectId graceKey bgs
    if guard.hit then
      let cachedResponse := guard.response.getD {}
      if cachedResponse.ok.getD false then
        ({ status := 200,
           body := { ok := cachedResponse.ok, remaining := cachedResponse.remaining,
                     error := cachedResponse.error,
                     idempotent := cachedResponse.idempotent,
                     grace := some true, windowUsed := some "grace_cached" } }, st)
      else
        doSpendAndRespond pr env ctx inGracePeriod bgs st
    else
      doSpendAndRespond pr env ctx inGracePeriod bgs st
  else
    doSpendAndRespond pr env ctx inGracePeriod bgs st

/-- Lines 204–338 of deterministic-verifier.js: compute `d`, decode the
points, verify π_I, cross-check `d_client`, canonicalize the origin,
derive `(epochDays, policyId, window, η, y)`, build `bindC`, verify π_C,
derive `IK`, pick the backend, and continue with the spend phase.
Thrown errors (`decodePoint`, `canonicalOrigin`) propagate as
`.error`. -/
def verifyPhase (pr : Prims) (env : Env) (req : Request) (now : Nat) (st : Stores)
    (projectId : String) (limit : Nat) (pl : Payload) :
    Except String (HttpResponse × Stores) :=
  let d := match pl.http_method, pl.http_path, pl.http_body_hash_b64 with
    | some m, some p, some hb => pr.H3http m.toUpper p (pr.b64urlToBytes hb)
    | _, _, _ => pr.H3http req.method.toUpper req.pathname (pr.sha256 req.bodyText)
  match pr.decodePoint pl.P with
  | .error e => .error e
  | .ok Ppt =>
  match pr.decodePoint pl.M with
  | .error e => .error e
  | .ok Mpt =>
  match pr.decodePoint pl.Z with
  | .error e => .error e
  | .ok Zpt =>
  match pr.decodePoint pl.Zprime with
  | .error e => .error e
  | .ok _Zppt =>
  match pr.decodePoint env.BRASS_ISSUER_PUBKEY with
  | .error e => .error e
  | .ok Ytok =>
    let cI := bytesToBig (pr.b64urlToBytes pl.piI.c)
    let rI := bytesToBig (pr.b64urlToBytes pl.piI.r)
    let okI := pr.dleqOkI Ytok Mpt Zpt cI rI
    if !okI then
      .ok ({ status := 401, body := { error := some "invalid_piI" } }, st)
    else
      let dOk := match pl.d_client with
        | some dc => ctEqual d (pr.b64urlToBytes dc)
        | none => true
      if !dOk then
        .ok ({ status := 401, body := { error := some "d_mismatch" } }, st)
      else
        match pr.canonicalOrigin pl.origin with
        | .error e => .error e
        | .ok originCanonical =>
          let epochDays := pr.currentEpochDays now
          let policyId := pr.parsePolicyId pl.AADr
          let window := pr.windowId epochDays
          let eta := pr.deriveEta env.BRASS_ISSUER_PUBKEY originCanonical epochDays
            policyId window
          let y := pr.deriveNullifierY pl.Zprime pl.KID pl.AADr eta
          let cC := bytesToBig (pr.b64urlToBytes pl.piC.c)
          let rC := bytesToBig (pr.b64urlToBytes pl.piC.r)
          let tlsBinding := pr.deriveTlsBinding (pl.tls_exporter_b64.map pr.b64urlToBytes)
          let bindC := pr.H3bind y (pr.b64urlToBytes pl.c) d tlsBinding window
            "P256_SHA256" "BRASS_v2.0" policyId pl.AADr pl.KID eta
          let okC := pr.dleqOkC Ppt Mpt cC rC bindC
          if !okC then
            .ok ({ status := 401, body := { error := some "invalid_piC" } }, st)
          else
            let IK := pr.deriveIdempotencyKey (pr.secretToBytes env.BRASS_KV_SECRET) y pl.c
            let useDO := ((env.STORAGE_BACKEND.getD "kv") == "durable_objects") &&
              env.BRASS_COUNTER
            .ok (spendPhase pr env
              { projectId := projectId, limit := limit,
                originCanonical := originCanonical, epochDays := epochDays,
                policyId := policyId, window := window, y := y, IK := IK,
                Zprime := pl.Zprime, KID := pl.KID, AADr := pl.AADr,
                useDO := useDO } now st)

/-- Lines 183–184 of deterministic-verifier.js: `JSON.parse(bodyText)`;
a parse failure is thrown (caught by the handler's catch-all). -/
def parsePhase (pr : Prims) (env : Env) (req : Request) (now : Nat) (st : Stores)
    (projectId : String) (limit : Nat) : Except String (HttpResponse × Stores) :=
  match req.payloadParse with
  | .error msg => .error msg
  | .ok pl => verifyPhase pr env req now st projectId limit pl

/-- Lines 122–511 of deterministic-verifier.js inside the `try`: health
endpoint, method check, API-key authentication (KV-based lookup or env
fallback), then parse and verify. -/
def fetchInner (pr : Prims) (env : Env) (req : Request) (now : Nat) (st : Stores) :
    Except String (HttpResponse × Stores) :=
  if req.method = "GET" ∧ req.pathname = "/health" then
    .ok ({ status := 200,
           body := { ok := some true, ts := some now,
                     build := some "deterministic-verifier-v2.0",
                     mode := some (env.STORAGE_BACKEND.getD "kv"),
                     strictEnforcement := some true } }, st)
  else if req.method ≠ "POST" then
    .ok ({ status := 405, body := { text := some "Method Not Allowed" } }, st)
  else
    let auth := req.authorization.getD ""
    if !strStarts auth "Bearer " then
      .ok ({ status := 401, body := { error := some "missing_api_key" } }, st)
    else
      let apiKey := strDrop auth 7
      if env.BRASS_KV && !env.BRASS_USE_ENV_AUTH then
        let keyData := pr.lookupApiKey apiKey
        if !keyData.valid then
          .ok ({ status := 401,
                 body := { error := some (jsOrStr keyData.error "invalid_api_key") } }, st)
        else
          parsePhase pr env req now st keyData.projectId (jsOrNat keyData.limit 10)
      else
        if apiKey ≠ env.BRASS_SECRET_KEY then
          .ok ({ status := 401, body := { error := some "invalid_api_key" } }, st)
        else
          parsePhase pr env req now st (jsOrStr env.BRASS_PROJECT_ID "default")
            ((env.BRASS_RATE_LIMIT).getD 10)

/-- The complete handler `fetch` with its surrounding `try/catch`: a
thrown message `e` becomes HTTP 500 with `{ error: e.message ||
'server_error' }` and the store untouched. -/
def fetchHandler (pr : Prims) (env : Env) (req : Request) (now : Nat) (st : Stores) :
    HttpResponse × Stores :=
  match fetchInner pr env req now st with
  | .ok out => out
  | .error e =>
    ({ status := 500, body := { error := some (jsOrStr e "server_error") } }, st)

/-- A simple concrete primitive family for witnesses: every check passes,
derivations are constant, and the grace period is off. -/
def trivPrims : Prims where
  lookupApiKey := fun _ => { valid := false, error := none, projectId := "", limit := none }
  sha256 := fun _ => []
  b64urlToBytes := fun _ => []
  bytesToB64url := fun _ => "B"
  H3http := fun _ _ _ => []
  decodePoint := fun _ => .ok 0
  dleqOkI := fun _ _ _ _ _ => true
  canonicalOrigin := fun s => .ok s
  currentEpochDays := fun _ => "19700"
  parsePolicyId := fun _ => "default"
  windowId := fun s => s
  deriveEta := fun _ _ _ _ _ => []
  deriveNullifierY := fun _ _ _ _ => []
  deriveTlsBinding := fun _ => []
  H3bind := fun _ _ _ _ _ _ _ _ _ _ _ => []
  dleqOkC := fun _ _ _ _ _ => true
  deriveGraceNullifier := fun _ _ _ _ _ _ _ _ => []
  deriveIdempotencyKey := fun _ _ _ => "IK"
  secretToBytes := fun _ => []
  isInGracePeriod := fun _ _ => false
  secondsUntilWindowEnd := fun _ => 100

/-- A concrete environment using the env-var auth fallback with a rate
limit of 0 (the parsed string "0" is truthy in the source, so the limit
really is 0). -/
def envAuthEnv : Env where
  BRASS_KV := false
  BRASS_USE_ENV_AUTH := false
  BRASS_SECRET_KEY := "k"
  BRASS_PROJECT_ID := some "p1"
  BRASS_RATE_LIMIT := some 0
  BRASS_ISSUER_PUBKEY := "Y"
  BRASS_KV_SECRET := "s"
  STORAGE_BACKEND := none
  BRASS_COUNTER := false
  BOUNDARY_GRACE_SECONDS := none

/-- A concrete well-formed presentation payload. -/
def basePayload : Payload where
  KID := "kid-2025-11"
  AADr := "policy=default"
  origin := "https://example.com"
  epoch := 0
  c := "c0"
  Z := "Zb"
  Zprime := "Zpb"
  P := "Pb"
  M := "Mb"
  piI := ⟨"ci", "ri"⟩
  piC := ⟨"cc", "rc"⟩
  d_client := none
  tls_exporter_b64 := none
  http_method := none
  http_path := none
  http_body_hash_b64 := none

/-- A concrete POST request carrying `basePayload` with the right
bearer token for `envAuthEnv`. -/
def postReq : Request where
  method := "POST"
  pathname := "/verify"
  authorization := some "Bearer k"
  bodyText := "{}"
  payloadParse := .ok basePayload

/-- Both storage namespaces empty. -/
def emptyStores : Stores := ⟨fun _ => none, fun _ => fun _ => none⟩

/-- A concrete spend context on the KV backend. -/
def baseCtx : SpendCtx where
  projectId := "p1"
  limit := 3
  originCanonical := "https://example.com"
  epochDays := "19700"
  policyId := "default"
  window := "19700"
  y := []
  IK := "IK"
  Zprime := "Zpb"
  KID := "kid-2025-11"
  AADr := "policy=default"
  useDO := false

/-! Helper lemmas about the storage model. -/

theorem kvPut_eq (kv : KV) (k : String) (e : Entry) : kvPut kv k e k = some e := by
  simp [kvPut]

theorem kvPut_ne (kv : KV) (k : String) (e : Entry) (k' : String) (h : k' ≠ k) :
    kvPut kv k e k' = kv k' := by
  simp [kvPut, h]

theorem dosPut_self (dos : DOState) (name : String) : dosPut dos name (dos name) = dos := by
  funext n'
  by_cases h : n' = name <;> simp [dosPut, h]

theorem getCount_put_self (kv : KV) (k : String) (n : Nat) (t : Option Nat) :
    getCount (kvPut kv k ⟨.count n, t⟩) k = n := by
  simp [getCount, kvPut]

theorem getCount_put_ne (kv : KV) (k : String) (e : Entry) (k' : String) (h : k' ≠ k) :
    getCount (kvPut kv k e) k' = getCount kv k' := by
  simp [getCount, kvPut, h]

/-- The three persisted key families are disjoint by construction: a
`count:`-prefixed key never equals an `ik:project:...` key. -/
theorem countKey_ne_ikKey (a p i : String) :
    ("count:" ++ a) ≠ ("ik:project:" ++ p ++ ":" ++ i) := by
  intro h
  have h2 := congrArg String.data h
  simp only [String.data_append, List.cons_append, List.append_assoc] at h2
  exact absurd (List.head_eq_of_cons_eq h2) (by decide)

/-- The Durable Object's literal `count` storage key never equals an
`ik:project:...` key. -/
theorem countLit_ne_ikKey (p i : String) :
    "count" ≠ ("ik:project:" ++ p ++ ":" ++ i) := by
  intro h
  have h2 := congrArg String.data h
  simp only [String.data_append, List.cons_append, List.append_assoc] at h2
  exact absurd (List.head_eq_of_cons_eq h2) (by decide)

/-- A `grace:project:...` key never equals an `ik:project:...` key. -/
theorem graceKey_ne_ikKey (a p i : String) :
    ("grace:project:" ++ a) ≠ ("ik:project:" ++ p ++ ":" ++ i) := by
  intro h
  have h2 := congrArg String.data h
  simp only [String.data_append, List.cons_append, List.append_assoc] at h2
  exact absurd (List.head_eq_of_cons_eq h2) (by decide)

/-- A `grace:project:...` key never equals a `count:`-prefixed key. -/
theorem graceKey_ne_countKey (a b : String) :
    ("grace:project:" ++ a) ≠ ("count:" ++ b) := by
  intro h
  have h2 := congrArg String.data h
  simp only [String.data_append, List.cons_append, List.append_assoc] at h2
  exact absurd (List.head_eq_of_cons_eq h2) (by decide)

/-! Claim C1: the handler's π_C decision versus the spec's equation. -/

/-- claim C1 (counterexample): the handler's π_C decision does not equal
the spec's reference equation on all inputs.  The handler passes the bare
base point as the second commitment (`A2c = G`), while the reference
reconstructs `A2' = G^{r_C}·G^{c_C}`, so the two Fiat-Shamir transcripts
differ whenever `r_C + c_C ≢ 1 (mod n)`.  With the hash instantiated to
a function that inspects the `A2` transcript slot, at
`P = G, M = 2·G, c_C = 5, r_C = 7, bind = []` the handler accepts and the
reference rejects. -/
theorem C1_counterexample :
    piC_handlerCheck (fun parts => if parts.getD 6 [] = [1] then [5] else [7])
      (fun x => [x]) 1 2 5 7 [] = true ∧
    piC_specCheck (fun parts => if parts.getD 6 [] = [1] then [5] else [7])
      (fun x => [x]) 1 2 5 7 [] = false := by
  constructor <;> decide

/-- claim C1 (amended): the handler fixes the second commitment to the
bare base point `G` and compares the reduced challenge for exact equality
against the unreduced `c_C`; its decision agrees with the spec's
reference equation exactly on inputs with `r_C + c_C ≡ 1 (mod n)` and
`c_C < n` (then `A2' = G` and the transcripts coincide), and in general
the two decisions differ. -/
theorem C1_amended (H3fn : List Bytes → Bytes) (enc : Nat → Bytes)
    (Ppt Mpt cC rC : Nat) (bindC : Bytes)
    (hsum : (rC + cC) % pOrder = 1 % pOrder) (hc : cC < pOrder) :
    piC_handlerCheck H3fn enc Ppt Mpt cC rC bindC =
      piC_specCheck H3fn enc Ppt Mpt cC rC bindC := by
  have hp : (1 : Nat) < pOrder := by decide
  have hA2 : ptAdd (ptMul rC Gpt) (ptMul cC Gpt) = Gpt := by
    simp only [ptAdd, ptMul, Gpt, Nat.mul_one]
    rw [← Nat.add_mod, hsum, Nat.mod_eq_of_lt hp]
  simp only [piC_handlerCheck, piC_specCheck, dleqVerify, hA2,
    Nat.mod_eq_of_lt hc]

/-- claim C1 (witness): a concrete in-range instance of the agreement
condition, `r_C = 3` and `c_C = n - 2` (so `r_C + c_C ≡ 1 (mod n)`). -/
theorem C1_witness :
    piC_handlerCheck (fun _ => [9]) (fun x => [x]) 1 2 (pOrder - 2) 3 [] =
      piC_specCheck (fun _ => [9]) (fun x => [x]) 1 2 (pOrder - 2) 3 [] :=
  C1_amended (fun _ => [9]) (fun x => [x]) 1 2 (pOrder - 2) 3 []
    (by decide) (by decide)

/-! Claim C2: idempotent replay. -/

/-- claim C2 (counterexample): on the Durable Object backend a replayed
denial is not returned byte-for-byte with `idempotent=true`.  With the
stored decision `{ ok:false, remaining:0, error:"limit_exceeded" }` under
the idempotency key, the inner object replies with status 429, which
`DurableObjectStore.spend` treats as `!response.ok` and collapses to
`{ ok:false, error:"limit_exceeded" }` — the stored `remaining` field and
the `idempotent=true` flag are dropped. -/
theorem C2_counterexample :
    (DurableObjectStore.spend
        (fun n =>
          if n = buildCounterKey ⟨"p1", "pk", "https://example.com", "19700", "default", "19700", "y1"⟩
          then (fun s =>
            if s = "ik:project:p1:IK1"
            then some ⟨.resp { ok := some false, remaining := some 0, error := some "limit_exceeded" }, some 100⟩
            else none)
          else (fun _ => none))
        ⟨"p1", "pk", "https://example.com", "19700", "default", "19700", "y1"⟩
        "IK1" 3 100).1 =
      { ok := some false, error := some "limit_exceeded" } ∧
    (DurableObjectStore.spend
        (fun n =>
          if n = buildCounterKey ⟨"p1", "pk", "https://example.com", "19700", "default", "19700", "y1"⟩
          then (fun s =>
            if s = "ik:project:p1:IK1"
            then some ⟨.resp { ok := some false, remaining := some 0, error := some "limit_exceeded" }, some 100⟩
            else none)
          else (fun _ => none))
        ⟨"p1", "pk", "https://example.com", "19700", "default", "19700", "y1"⟩
        "IK1" 3 100).1 ≠
      { ok := some false, remaining := some 0, error := some "limit_exceeded",
        idempotent := some true } := by
  constructor <;> decide

/-- claim C2 (amended): when the idempotency record is present, no
backend increments a counter, rewrites the record or extends its TTL, and
the state is returned unchanged.  `KVStore.spend` and the inner
`BrassCounterDO.handleSpend` return the stored decision with
`idempotent=true` added; the Durable Object adapter forwards success
replays in full but collapses replayed denials (status 429) to
`{ ok:false, error }`, dropping `remaining` and the `idempotent` flag. -/
theorem C2_amended :
    (∀ (kv : KV) (key : CounterKeyParts) (IK : String) (limit ttl : Nat)
        (cached : SpendResult) (t : Option Nat),
      kv ("ik:project:" ++ key.projectId ++ ":" ++ IK) = some ⟨.resp cached, t⟩ →
      KVStore.spend kv key IK limit ttl = ({ cached with idempotent := some true }, kv)) ∧
    (∀ (inst : KV) (pid IK : String) (limit ttl : Nat)
        (cached : SpendResult) (t : Option Nat),
      inst ("ik:project:" ++ pid ++ ":" ++ IK) = some ⟨.resp cached, t⟩ →
      BrassCounterDO.handleSpend inst pid IK limit ttl =
        ({ status := if cached.ok.getD false then 200 else 429,
           body := { cached with idempotent := some true } }, inst)) ∧
    (∀ (dos : DOState) (key : CounterKeyParts) (IK : String) (limit ttl : Nat)
        (cached : SpendResult) (t : Option Nat),
      dos (buildCounterKey key) ("ik:project:" ++ key.projectId ++ ":" ++ IK) =
          some ⟨.resp cached, t⟩ →
      DurableObjectStore.spend dos key IK limit ttl =
        ((if cached.ok.getD false then { cached with idempotent := some true }
          else { ok := some false, error := some (jsOrStr cached.error "unknown_error") }),
         dos)) := by
  refine ⟨?_, ?_, ?_⟩
  · intro kv key IK limit ttl cached t h
    simp [KVStore.spend, h, asResp]
  · intro inst pid IK limit ttl cached t h
    simp [BrassCounterDO.handleSpend, h, asResp]
  · intro dos key IK limit ttl cached t h
    cases hok : cached.ok.getD false <;>
      simp [DurableObjectStore.spend, BrassCounterDO.handleSpend, h, asResp, hok, dosPut_self]

/-- claim C2 (witness): concrete replay of a stored success on the KV
backend returns the stored decision plus `idempotent=true` and leaves the
store untouched. -/
theorem C2_witness :
    KVStore.spend
        (fun s =>
          if s = "ik:project:p1:IK1"
          then some ⟨.resp { ok := some true, remaining := some 2 }, some 50⟩
          else none)
        ⟨"p1", "pk", "https://example.com", "19700", "default", "19700", "y1"⟩
        "IK1" 3 50 =
      ({ ok := some true, remaining := some 2, idempotent := some true },
       (fun s =>
          if s = "ik:project:p1:IK1"
          then some ⟨.resp { ok := some true, remaining := some 2 }, some 50⟩
          else none)) :=
  C2_amended.1
    (fun s =>
      if s = "ik:project:p1:IK1"
      then some ⟨.resp { ok := some true, remaining := some 2 }, some 50⟩
      else none)
    ⟨"p1", "pk", "https://example.com", "19700", "default", "19700", "y1"⟩
    "IK1" 3 50 { ok := some true, remaining := some 2 } (some 50) (by decide)

/-! Claim C3: fresh spend (no idempotency record). -/

/-- claim C3: for a spend with no existing IK record, with `C` the
current count the adapter determines (the namespaced counter, falling
back to a positive legacy counter when the namespaced one reads 0): if
`C ≥ limit` the call returns `{ ok:false, error:"limit_exceeded",
remaining:0 }`, persists exactly that response under the IK key with
`ttlSeconds`, and leaves the counter value at `C`; otherwise it sets the
counter to `C+1`, returns `{ ok:true, remaining := limit - (C+1) }`, and
persists counter and IK record with the same `ttlSeconds`.  Stated for
both backends (`KVStore.spend` and `BrassCounterDO.handleSpend`). -/
theorem C3_fresh_spend :
    (∀ (kv : KV) (key : CounterKeyParts) (IK : String) (limit ttl : Nat) (C : Nat),
      kv ("ik:project:" ++ key.projectId ++ ":" ++ IK) = none →
      C = (if getCount kv ("count:" ++ buildCounterKey key) = 0 ∧
              0 < getCount kv ("count:" ++ buildLegacyCounterKey key)
           then getCount kv ("count:" ++ buildLegacyCounterKey key)
           else getCount kv ("count:" ++ buildCounterKey key)) →
      (limit ≤ C →
        (KVStore.spend kv key IK limit ttl).1 =
          { ok := some false, remaining := some 0, error := some "limit_exceeded" } ∧
        (KVStore.spend kv key IK limit ttl).2 ("ik:project:" ++ key.projectId ++ ":" ++ IK) =
          some ⟨.resp { ok := some false, remaining := some 0, error := some "limit_exceeded" },
                some ttl⟩ ∧
        getCount (KVStore.spend kv key IK limit ttl).2 ("count:" ++ buildCounterKey key) = C) ∧
      (C < limit →
        (KVStore.spend kv key IK limit ttl).1 =
          { ok := some true, remaining := some (limit - (C + 1)) } ∧
        (KVStore.spend kv key IK limit ttl).2 ("count:" ++ buildCounterKey key) =
          some ⟨.count (C + 1), some ttl⟩ ∧
        (KVStore.spend kv key IK limit ttl).2 ("ik:project:" ++ key.projectId ++ ":" ++ IK) =
          some ⟨.resp { ok := some true, remaining := some (limit - (C + 1)) }, some ttl⟩)) ∧
    (∀ (inst : KV) (pid IK : String) (limit ttl : Nat) (C : Nat),
      inst ("ik:project:" ++ pid ++ ":" ++ IK) = none →
      C = (if getCount inst "count" = 0 ∧ 0 < getCount inst "legacy_count"
           then getCount inst "legacy_count"
           else getCount inst "count") →
      (limit ≤ C →
        (BrassCounterDO.handleSpend inst pid IK limit ttl).1 =
          ⟨429, { ok := some false, remaining := some 0, error := some "limit_exceeded" }⟩ ∧
        (BrassCounterDO.handleSpend inst pid IK limit ttl).2
            ("ik:project:" ++ pid ++ ":" ++ IK) =
          some ⟨.resp { ok := some false, remaining := some 0, error := some "limit_exceeded" },
                some ttl⟩ ∧
        getCount (BrassCounterDO.handleSpend inst pid IK limit ttl).2 "count" = C) ∧
      (C < limit →
        (BrassCounterDO.handleSpend inst pid IK limit ttl).1 =
          ⟨200, { ok := some true, remaining := some (limit - (C + 1)) }⟩ ∧
        (BrassCounterDO.handleSpend inst pid IK limit ttl).2 "count" =
          some ⟨.count (C + 1), some ttl⟩ ∧
        (BrassCounterDO.handleSpend inst pid IK limit ttl).2
            ("ik:project:" ++ pid ++ ":" ++ IK) =
          some ⟨.resp { ok := some true, remaining := some (limit - (C + 1)) }, some ttl⟩)) := by
  constructor
  · intro kv key IK limit ttl C hik hC
    subst hC
    by_cases h0 : getCount kv ("count:" ++ buildCounterKey key) = 0 <;>
      by_cases hL : 0 < getCount kv ("count:" ++ buildLegacyCounterKey key) <;>
      constructor <;> intro hlim <;>
        simp_all [KVStore.spend, enableMigrationFallback, kvPut_eq, kvPut_ne,
          getCount_put_self, getCount_put_ne, countKey_ne_ikKey] <;>
        (first
          | omega
          | (split <;>
              first
                | omega
                | simp_all [kvPut_eq, kvPut_ne, getCount_put_self, getCount_put_ne,
                    countKey_ne_ikKey]))
  · intro inst pid IK limit ttl C hik hC
    subst hC
    by_cases h0 : getCount inst "count" = 0 <;>
      by_cases hL : 0 < getCount inst "legacy_count" <;>
      constructor <;> intro hlim <;>
        simp_all [BrassCounterDO.handleSpend, enableMigrationFallback, kvPut_eq, kvPut_ne,
          getCount_put_self, getCount_put_ne, countLit_ne_ikKey] <;>
        (first
          | omega
          | (split <;>
              first
                | omega
                | simp_all [kvPut_eq, kvPut_ne, getCount_put_self, getCount_put_ne,
                    countLit_ne_ikKey]))

/-- claim C3 (witness): a first spend on an empty KV store with limit 3
succeeds with `remaining = 2` and stores counter 1 with the TTL. -/
theorem C3_witness :
    (KVStore.spend (fun _ => none)
        ⟨"p1", "pk", "https://example.com", "19700", "default", "19700", "y1"⟩
        "IK1" 3 3600).1 = { ok := some true, remaining := some 2 } ∧
    (KVStore.spend (fun _ => none)
        ⟨"p1", "pk", "https://example.com", "19700", "default", "19700", "y1"⟩
        "IK1" 3 3600).2
      ("count:" ++ buildCounterKey
        ⟨"p1", "pk", "https://example.com", "19700", "default", "19700", "y1"⟩) =
      some ⟨.count 1, some 3600⟩ := by
  have h := (C3_fresh_spend.1 (fun _ => none)
    ⟨"p1", "pk", "https://example.com", "19700", "default", "19700", "y1"⟩
    "IK1" 3 3600 0 (by decide) (by decide)).2 (by decide)
  exact ⟨h.1, h.2.1⟩

/-! Claim C9: the grace cache is write-once per key. -/

/-- claim C9: once any response is stored under a grace key, a later
`cacheGraceResponse` for the same `(projectId, graceKey)` leaves the
store unchanged, on both the best-effort (`KVStore`) and the atomic
(`DurableObjectStore` / `BrassCounterDO`) backend. -/
theorem C9_grace_write_once :
    (∀ (kv : KV) (pid gk : String) (ttl : Nat) (response : SpendResult) (e : Entry),
      kv ("grace:project:" ++ pid ++ ":" ++ gk) = some e →
      KVStore.cacheGraceResponse kv pid gk ttl response = kv) ∧
    (∀ (dos : DOState) (pid gk : String) (ttl : Nat) (response : SpendResult) (e : Entry),
      dos ("grace:" ++ pid ++ ":" ++ gk) ("grace:project:" ++ pid ++ ":" ++ gk) = some e →
      DurableObjectStore.cacheGraceResponse dos pid gk ttl response = dos) := by
  constructor
  · intro kv pid gk ttl response e h
    simp [KVStore.cacheGraceResponse, h]
  · intro dos pid gk ttl response e h
    simp [DurableObjectStore.cacheGraceResponse, BrassCounterDO.handleGraceCache, h,
      dosPut_self]

/-- claim C9 (witness): concrete instance on both backends. -/
theorem C9_witness :
    KVStore.cacheGraceResponse
        (fun s => if s = "grace:project:p1:gk1"
          then some ⟨.resp { ok := some true, remaining := some 1 }, some 60⟩ else none)
        "p1" "gk1" 60 { ok := some true, remaining := some 0 } =
      (fun s => if s = "grace:project:p1:gk1"
        then some ⟨.resp { ok := some true, remaining := some 1 }, some 60⟩ else none) ∧
    DurableObjectStore.cacheGraceResponse
        (fun n => if n = "grace:p1:gk1"
          then (fun s => if s = "grace:project:p1:gk1"
            then some ⟨.resp { ok := some true, remaining := some 1 }, some 60⟩ else none)
          else (fun _ => none))
        "p1" "gk1" 60 { ok := some true, remaining := some 0 } =
      (fun n => if n = "grace:p1:gk1"
        then (fun s => if s = "grace:project:p1:gk1"
          then some ⟨.resp { ok := some true, remaining := some 1 }, some 60⟩ else none)
        else (fun _ => none)) :=
  ⟨C9_grace_write_once.1
      (fun s => if s = "grace:project:p1:gk1"
        then some ⟨.resp { ok := some true, remaining := some 1 }, some 60⟩ else none)
      "p1" "gk1" 60 { ok := some true, remaining := some 0 }
      ⟨.resp { ok := some true, remaining := some 1 }, some 60⟩ (by decide),
   C9_grace_write_once.2
      (fun n => if n = "grace:p1:gk1"
        then (fun s => if s = "grace:project:p1:gk1"
          then some ⟨.resp { ok := some true, remaining := some 1 }, some 60⟩ else none)
        else (fun _ => none))
      "p1" "gk1" 60 { ok := some true, remaining := some 0 }
      ⟨.resp { ok := some true, remaining := some 1 }, some 60⟩ (by decide)⟩

/-! Claim C10: legacy-counter migration fallback. -/

/-- claim C10 (counterexample): on the Durable Object backend the
migration copy of the legacy count is stored without any TTL
(`storage.put('count', legacyCount)` passes no `expirationTtl`), so the
claim's "copying it to the namespaced key with the spend's TTL" fails
there: with `legacy_count = 5`, `limit = 3`, `ttlSeconds = 120`, the
spend is denied by the legacy count and the copied entry has no TTL. -/
theorem C10_counterexample :
    (BrassCounterDO.handleSpend
        (fun s => if s = "legacy_count" then some ⟨.count 5, some 77⟩ else none)
        "p1" "IK1" 3 120).1 =
      ⟨429, { ok := some false, remaining := some 0, error := some "limit_exceeded" }⟩ ∧
    (BrassCounterDO.handleSpend
        (fun s => if s = "legacy_count" then some ⟨.count 5, some 77⟩ else none)
        "p1" "IK1" 3 120).2 "count" = some ⟨.count 5, none⟩ ∧
    some ⟨StoredValue.count 5, none⟩ ≠ some (⟨.count 5, some 120⟩ : Entry) := by
  refine ⟨by decide, by decide, by decide⟩

/-- claim C10 (amended): in both backends, when the namespaced counter
reads 0 and the legacy counter holds `L > 0` and no IK record exists,
`spend` adopts `L` as the current count before the limit comparison, so
the decision and `remaining` are governed by the legacy counter; the
legacy count is copied to the namespaced key with the spend's TTL on the
KV backend but with no TTL on the Durable Object backend. -/
theorem C10_amended :
    (∀ (kv : KV) (key : CounterKeyParts) (IK : String) (limit ttl L : Nat),
      kv ("ik:project:" ++ key.projectId ++ ":" ++ IK) = none →
      getCount kv ("count:" ++ buildCounterKey key) = 0 →
      getCount kv ("count:" ++ buildLegacyCounterKey key) = L →
      0 < L →
      (limit ≤ L →
        (KVStore.spend kv key IK limit ttl).1 =
          { ok := some false, remaining := some 0, error := some "limit_exceeded" } ∧
        (KVStore.spend kv key IK limit ttl).2 ("count:" ++ buildCounterKey key) =
          some ⟨.count L, some ttl⟩) ∧
      (L < limit →
        (KVStore.spend kv key IK limit ttl).1 =
          { ok := some true, remaining := some (limit - (L + 1)) } ∧
        (KVStore.spend kv key IK limit ttl).2 ("count:" ++ buildCounterKey key) =
          some ⟨.count (L + 1), some ttl⟩)) ∧
    (∀ (inst : KV) (pid IK : String) (limit ttl L : Nat),
      inst ("ik:project:" ++ pid ++ ":" ++ IK) = none →
      getCount inst "count" = 0 →
      getCount inst "legacy_count" = L →
      0 < L →
      (limit ≤ L →
        (BrassCounterDO.handleSpend inst pid IK limit ttl).1 =
          ⟨429, { ok := some false, remaining := some 0, error := some "limit_exceeded" }⟩ ∧
        (BrassCounterDO.handleSpend inst pid IK limit ttl).2 "count" =
          some ⟨.count L, none⟩) ∧
      (L < limit →
        (BrassCounterDO.handleSpend inst pid IK limit ttl).1 =
          ⟨200, { ok := some true, remaining := some (limit - (L + 1)) }⟩ ∧
        (BrassCounterDO.handleSpend inst pid IK limit ttl).2 "count" =
          some ⟨.count (L + 1), some ttl⟩)) := by
  constructor
  · intro kv key IK limit ttl L hik h0 hLv hL
    subst hLv
    constructor <;> intro hlim <;>
      simp_all [KVStore.spend, enableMigrationFallback, kvPut_eq, kvPut_ne,
        getCount_put_self, getCount_put_ne, countKey_ne_ikKey] <;>
      (first
        | omega
        | (split <;>
            first
              | omega
              | simp_all [kvPut_eq, kvPut_ne, getCount_put_self, getCount_put_ne,
                  countKey_ne_ikKey]))
  · intro inst pid IK limit ttl L hik h0 hLv hL
    subst hLv
    constructor <;> intro hlim <;>
      simp_all [BrassCounterDO.handleSpend, enableMigrationFallback, kvPut_eq, kvPut_ne,
        getCount_put_self, getCount_put_ne, countLit_ne_ikKey] <;>
      (first
        | omega
        | (split <;>
            first
              | omega
              | simp_all [kvPut_eq, kvPut_ne, getCount_put_self, getCount_put_ne,
                  countLit_ne_ikKey]))

/-- claim C10 (witness): concrete migration on the KV backend — legacy
count 2 with limit 3 is adopted and incremented to 3 under the namespaced
key with the spend's TTL. -/
theorem C10_witness :
    (KVStore.spend
        (fun s => if s = "count:" ++ buildLegacyCounterKey
            ⟨"p1", "pk", "https://example.com", "19700", "default", "19700", "y1"⟩
          then some ⟨.count 2, some 99⟩ else none)
        ⟨"p1", "pk", "https://example.com", "19700", "default", "19700", "y1"⟩
        "IK1" 3 3600).1 = { ok := some true, remaining := some 0 } ∧
    (KVStore.spend
        (fun s => if s = "count:" ++ buildLegacyCounterKey
            ⟨"p1", "pk", "https://example.com", "19700", "default", "19700", "y1"⟩
          then some ⟨.count 2, some 99⟩ else none)
        ⟨"p1", "pk", "https://example.com", "19700", "default", "19700", "y1"⟩
        "IK1" 3 3600).2
      ("count:" ++ buildCounterKey
        ⟨"p1", "pk", "https://example.com", "19700", "default", "19700", "y1"⟩) =
      some ⟨.count 3, some 3600⟩ :=
  (C10_amended.1
    (fun s => if s = "count:" ++ buildLegacyCounterKey
        ⟨"p1", "pk", "https://example.com", "19700", "default", "19700", "y1"⟩
      then some ⟨.count 2, some 99⟩ else none)
    ⟨"p1", "pk", "https://example.com", "19700", "default", "19700", "y1"⟩
    "IK1" 3 3600 2 (by decide) (by decide) (by decide) (by decide)).2 (by decide)

/-! Claim C4: what gets written into the grace cache. -/

/-- claim C4 (counterexample): the handler caches the spend result in the
grace cache before inspecting `result.ok`, so a denial is written.  On a
concrete in-grace request (limit 0, empty store), the spend is denied and
the grace cache afterwards holds the `ok:false` denial — refuting "no
denial is ever written into the grace cache by any operation". -/
theorem C4_counterexample :
    (fetchHandler { trivPrims with isInGracePeriod := fun _ _ => true }
        envAuthEnv postReq 0 emptyStores).1.status = 429 ∧
    (fetchHandler { trivPrims with isInGracePeriod := fun _ _ => true }
        envAuthEnv postReq 0 emptyStores).2.kv "grace:project:p1:B" =
      some ⟨.resp { ok := some false, remaining := some 0, error := some "limit_exceeded" },
            some 60⟩ ∧
    ({ ok := some false, remaining := some 0, error := some "limit_exceeded" } :
        SpendResult).ok ≠ some true := by
  refine ⟨by decide, by decide, by decide⟩

/-- claim C4 (amended): in the grace window the handler passes the spend
result to `cacheGraceResponse` whatever its `ok` flag; on the KV backend,
whenever the grace key is still absent after the spend, the full result —
success or denial — is stored under the grace key with the boundary-grace
TTL.  (Denials in the cache are never replayed; a later hit on an
`ok:false` entry re-evaluates, by the grace-hit branch.) -/
theorem C4_amended :
    ∀ (pr : Prims) (env : Env) (ctx : SpendCtx) (bgs : Nat) (st : Stores)
      (res : SpendResult) (st1 : Stores),
      ctx.useDO = false →
      storeSpend ctx.useDO st
        { projectId := ctx.projectId, issuerPk := env.BRASS_ISSUER_PUBKEY,
          origin := ctx.originCanonical, epoch := ctx.epochDays,
          policy := ctx.policyId, window := ctx.window,
          y := pr.bytesToB64url ctx.y } ctx.IK ctx.limit
        (pr.secondsUntilWindowEnd ctx.epochDays) = (res, st1) →
      st1.kv ("grace:project:" ++ ctx.projectId ++ ":" ++
        pr.bytesToB64url (pr.deriveGraceNullifier ctx.Zprime ctx.KID
          env.BRASS_ISSUER_PUBKEY ctx.originCanonical ctx.policyId
          "P256_SHA256" "BRASS_v2.0" ctx.AADr)) = none →
      (doSpendAndRespond pr env ctx true bgs st).2.kv
        ("grace:project:" ++ ctx.projectId ++ ":" ++
          pr.bytesToB64url (pr.deriveGraceNullifier ctx.Zprime ctx.KID
            env.BRASS_ISSUER_PUBKEY ctx.originCanonical ctx.policyId
            "P256_SHA256" "BRASS_v2.0" ctx.AADr)) =
        some ⟨.resp res, some bgs⟩ := by
  intro pr env ctx bgs st res st1 hdo hspend habs
  simp only [doSpendAndRespond, hspend]
  split <;>
    simp [storeCacheGrace, hdo, KVStore.cacheGraceResponse, habs, kvPut_eq]

/-- claim C4 (witness): concrete application — a denial produced by a
spend with limit 0 on the empty KV store is written to the grace cache. -/
theorem C4_witness :
    (doSpendAndRespond trivPrims envAuthEnv { baseCtx with limit := 0 } true 60
        emptyStores).2.kv "grace:project:p1:B" =
      some ⟨.resp { ok := some false, remaining := some 0, error := some "limit_exceeded" },
            some 60⟩ :=
  C4_amended trivPrims envAuthEnv { baseCtx with limit := 0 } 60 emptyStores
    { ok := some false, remaining := some 0, error := some "limit_exceeded" }
    ⟨kvPut emptyStores.kv "ik:project:p1:IK"
      ⟨.resp { ok := some false, remaining := some 0, error := some "limit_exceeded" },
       some 100⟩, emptyStores.dos⟩
    (by decide) rfl (by decide)

/-! Claim C5: behaviour on a grace-guard hit. -/

/-- claim C5: when the grace guard hits, a cached success is returned as
HTTP 200 with `windowUsed = "grace_cached"` and the store untouched (no
`spend` call), while a cached denial is not replayed: the handler falls
through to the fresh spend evaluation (`doSpendAndRespond`) in the
current window. -/
theorem C5_grace_hit :
    ∀ (pr : Prims) (env : Env) (ctx : SpendCtx) (now : Nat) (st : Stores)
      (cached : SpendResult),
      pr.isInGracePeriod now ((env.BOUNDARY_GRACE_SECONDS).getD 60) = true →
      storeGuardGrace ctx.useDO st ctx.projectId
        (pr.bytesToB64url (pr.deriveGraceNullifier ctx.Zprime ctx.KID
          env.BRASS_ISSUER_PUBKEY ctx.originCanonical ctx.policyId
          "P256_SHA256" "BRASS_v2.0" ctx.AADr))
        ((env.BOUNDARY_GRACE_SECONDS).getD 60) =
        { hit := true, response := some cached } →
      (cached.ok = some true →
        spendPhase pr env ctx now st =
          ({ status := 200,
             body := { ok := cached.ok, remaining := cached.remaining,
                       error := cached.error, idempotent := cached.idempotent,
                       grace := some true, windowUsed := some "grace_cached" } }, st)) ∧
      (cached.ok.getD false = false →
        spendPhase pr env ctx now st =
          doSpendAndRespond pr env ctx true ((env.BOUNDARY_GRACE_SECONDS).getD 60) st) := by
  intro pr env ctx now st cached hg hguard
  constructor <;> intro hok <;> simp [spendPhase, hg, hguard, hok]

/-- claim C5 (witness): a cached success `{ ok:true, remaining:1 }` under
the grace key of a concrete context is replayed as HTTP 200 with
`windowUsed = "grace_cached"`, leaving the store unchanged. -/
theorem C5_witness :
    spendPhase { trivPrims with isInGracePeriod := fun _ _ => true } envAuthEnv baseCtx 0
        ⟨fun s => if s = "grace:project:p1:B"
          then some ⟨.resp { ok := some true, remaining := some 1 }, some 60⟩ else none,
         fun _ => fun _ => none⟩ =
      ({ status := 200,
         body := { ok := some true, remaining := some 1,
                   grace := some true, windowUsed := some "grace_cached" } },
       ⟨fun s => if s = "grace:project:p1:B"
          then some ⟨.resp { ok := some true, remaining := some 1 }, some 60⟩ else none,
        fun _ => fun _ => none⟩) :=
  (C5_grace_hit { trivPrims with isInGracePeriod := fun _ _ => true } envAuthEnv baseCtx 0
    ⟨fun s => if s = "grace:project:p1:B"
        then some ⟨.resp { ok := some true, remaining := some 1 }, some 60⟩ else none,
     fun _ => fun _ => none⟩
    { ok := some true, remaining := some 1 }
    (by decide) (by decide)).1 (by decide)

/-! Claim C6: HTTP status per error kind. -/

/-- claim C6 (counterexample): a point-decoding failure is thrown and
caught by the handler's catch-all, producing HTTP 500 — not the HTTP 401
the claim asserts for `invalid_point_encoding`. -/
theorem C6_counterexample :
    (fetchHandler { trivPrims with decodePoint := fun _ => .error "invalid_point_encoding" }
        envAuthEnv postReq 0 emptyStores).1 =
      { status := 500, body := { error := some "invalid_point_encoding" } } ∧
    (500 : Nat) ≠ 401 := by
  refine ⟨by decide, by decide⟩

/-- claim C6 (amended): proof errors `invalid_piI`, `d_mismatch` and
`invalid_piC` are returned as HTTP 401 with body `{ error: kind }`, while
the point-codec and origin-canonicalization kinds are thrown and mapped
by the catch-all to HTTP 500 with body `{ error: kind }`.  Stated as the
chain: the authenticated handler reaches the parse/verify phase; decode
and origin failures propagate as thrown errors; the three proof checks
return 401; a thrown error becomes a 500 response with the kind in the
body. -/
theorem C6_error_status :
    (∀ (pr : Prims) (env : Env) (req : Request) (now : Nat) (st : Stores) (a : String),
      req.method = "POST" → req.authorization = some a →
      strStarts a "Bearer " = true → env.BRASS_KV = false →
      strDrop a 7 = env.BRASS_SECRET_KEY →
      fetchInner pr env req now st =
        parsePhase pr env req now st (jsOrStr env.BRASS_PROJECT_ID "default")
          ((env.BRASS_RATE_LIMIT).getD 10)) ∧
    (∀ (pr : Prims) (env : Env) (req : Request) (now : Nat) (st : Stores)
        (pid : String) (lim : Nat) (pl : Payload),
      req.payloadParse = .ok pl →
      parsePhase pr env req now st pid lim = verifyPhase pr env req now st pid lim pl) ∧
    (∀ (pr : Prims) (env : Env) (req : Request) (now : Nat) (st : Stores)
        (pid : String) (lim : Nat) (pl : Payload) (e : String),
      pr.decodePoint pl.P = .error e →
      verifyPhase pr env req now st pid lim pl = .error e) ∧
    (∀ (pr : Prims) (env : Env) (req : Request) (now : Nat) (st : Stores)
        (pid : String) (lim : Nat) (pl : Payload) (Ppt Mpt Zpt Zpp Ytok : Nat),
      pr.decodePoint pl.P = .ok Ppt → pr.decodePoint pl.M = .ok Mpt →
      pr.decodePoint pl.Z = .ok Zpt → pr.decodePoint pl.Zprime = .ok Zpp →
      pr.decodePoint env.BRASS_ISSUER_PUBKEY = .ok Ytok →
      pr.dleqOkI Ytok Mpt Zpt (bytesToBig (pr.b64urlToBytes pl.piI.c))
        (bytesToBig (pr.b64urlToBytes pl.piI.r)) = false →
      verifyPhase pr env req now st pid lim pl =
        .ok ({ status := 401, body := { error := some "invalid_piI" } }, st)) ∧
    (∀ (pr : Prims) (env : Env) (req : Request) (now : Nat) (st : Stores)
        (pid : String) (lim : Nat) (pl : Payload) (Ppt Mpt Zpt Zpp Ytok : Nat)
        (dc : String),
      pr.decodePoint pl.P = .ok Ppt → pr.decodePoint pl.M = .ok Mpt →
      pr.decodePoint pl.Z = .ok Zpt → pr.decodePoint pl.Zprime = .ok Zpp →
      pr.decodePoint env.BRASS_ISSUER_PUBKEY = .ok Ytok →
      pr.dleqOkI Ytok Mpt Zpt (bytesToBig (pr.b64urlToBytes pl.piI.c))
        (bytesToBig (pr.b64urlToBytes pl.piI.r)) = true →
      pl.d_client = some dc →
      ctEqual
        (match pl.http_method, pl.http_path, pl.http_body_hash_b64 with
          | some m, some p, some hb => pr.H3http m.toUpper p (pr.b64urlToBytes hb)
          | _, _, _ => pr.H3http req.method.toUpper req.pathname (pr.sha256 req.bodyText))
        (pr.b64urlToBytes dc) = false →
      verifyPhase pr env req now st pid lim pl =
        .ok ({ status := 401, body := { error := some "d_mismatch" } }, st)) ∧
    (∀ (pr : Prims) (env : Env) (req : Request) (now : Nat) (st : Stores)
        (pid : String) (lim : Nat) (pl : Payload) (Ppt Mpt Zpt Zpp Ytok : Nat)
        (e : String),
      pr.decodePoint pl.P = .ok Ppt → pr.decodePoint pl.M = .ok Mpt →
      pr.decodePoint pl.Z = .ok Zpt → pr.decodePoint pl.Zprime = .ok Zpp →
      pr.decodePoint env.BRASS_ISSUER_PUBKEY = .ok Ytok →
      pr.dleqOkI Ytok Mpt Zpt (bytesToBig (pr.b64urlToBytes pl.piI.c))
        (bytesToBig (pr.b64urlToBytes pl.piI.r)) = true →
      pl.d_client = none →
      pr.canonicalOrigin pl.origin = .error e →
      verifyPhase pr env req now st pid lim pl = .error e) ∧
    (∀ (pr : Prims) (env : Env) (req : Request) (now : Nat) (st : Stores)
        (pid : String) (lim : Nat) (pl : Payload) (Ppt Mpt Zpt Zpp Ytok : Nat)
        (oc : String) (eta y bindC : Bytes),
      pr.decodePoint pl.P = .ok Ppt → pr.decodePoint pl.M = .ok Mpt →
      pr.decodePoint pl.Z = .ok Zpt → pr.decodePoint pl.Zprime = .ok Zpp →
      pr.decodePoint env.BRASS_ISSUER_PUBKEY = .ok Ytok →
      pr.dleqOkI Ytok Mpt Zpt (bytesToBig (pr.b64urlToBytes pl.piI.c))
        (bytesToBig (pr.b64urlToBytes pl.piI.r)) = true →
      pl.d_client = none →
      pr.canonicalOrigin pl.origin = .ok oc →
      pr.deriveEta env.BRASS_ISSUER_PUBKEY oc (pr.currentEpochDays now)
        (pr.parsePolicyId pl.AADr) (pr.windowId (pr.currentEpochDays now)) = eta →
      pr.deriveNullifierY pl.Zprime pl.KID pl.AADr eta = y →
      pr.H3bind y (pr.b64urlToBytes pl.c)
        (match pl.http_method, pl.http_path, pl.http_body_hash_b64 with
          | some m, some p, some hb => pr.H3http m.toUpper p (pr.b64urlToBytes hb)
          | _, _, _ => pr.H3http req.method.toUpper req.pathname (pr.sha256 req.bodyText))
        (pr.deriveTlsBinding (pl.tls_exporter_b64.map pr.b64urlToBytes))
        (pr.windowId (pr.currentEpochDays now)) "P256_SHA256" "BRASS_v2.0"
        (pr.parsePolicyId pl.AADr) pl.AADr pl.KID eta = bindC →
      pr.dleqOkC Ppt Mpt (bytesToBig (pr.b64urlToBytes pl.piC.c))
        (bytesToBig (pr.b64urlToBytes pl.piC.r)) bindC = false →
      verifyPhase pr env req now st pid lim pl =
        .ok ({ status := 401, body := { error := some "invalid_piC" } }, st)) ∧
    (∀ (pr : Prims) (env : Env) (req : Request) (now : Nat) (st : Stores) (e : String),
      fetchInner pr env req now st = .error e →
      fetchHandler pr env req now st =
        ({ status := 500, body := { error := some (jsOrStr e "server_error") } }, st)) := by
  refine ⟨?_, ?_, ?_, ?_, ?_, ?_, ?_, ?_⟩
  · intro pr env req now st a hm hauth hbear hkv hkey
    simp [fetchInner, hm, hauth, hbear, hkv, hkey]
  · intro pr env req now st pid lim pl hpl
    simp [parsePhase, hpl]
  · intro pr env req now st pid lim pl e hP
    simp [verifyPhase, hP]
  · intro pr env req now st pid lim pl Ppt Mpt Zpt Zpp Ytok hP hM hZ hZp hY hI
    simp [verifyPhase, hP, hM, hZ, hZp, hY, hI]
  · intro pr env req now st pid lim pl Ppt Mpt Zpt Zpp Ytok dc hP hM hZ hZp hY hI hdc hct
    simp [verifyPhase, hP, hM, hZ, hZp, hY, hI, hdc, hct]
  · intro pr env req now st pid lim pl Ppt Mpt Zpt Zpp Ytok e hP hM hZ hZp hY hI hdc ho
    simp [verifyPhase, hP, hM, hZ, hZp, hY, hI, hdc, ho]
  · intro pr env req now st pid lim pl Ppt Mpt Zpt Zpp Ytok oc eta y bindC
      hP hM hZ hZp hY hI hdc ho heta hy hbind hC
    subst heta
    subst hy
    subst hbind
    simp [verifyPhase, hP, hM, hZ, hZp, hY, hI, hdc, ho, hC]
  · intro pr env req now st e hfi
    simp [fetchHandler, hfi]

/-- claim C6 (witness): concrete runs — an `invalid_piI` failure returns
HTTP 401 with `{ error: "invalid_piI" }`, and a thrown
`invalid_point_encoding` produces the HTTP 500 catch-all response. -/
theorem C6_witness :
    verifyPhase { trivPrims with dleqOkI := fun _ _ _ _ _ => false } envAuthEnv postReq 0
        emptyStores "p1" 3 basePayload =
      .ok ({ status := 401, body := { error := some "invalid_piI" } }, emptyStores) ∧
    fetchHandler { trivPrims with decodePoint := fun _ => .error "invalid_point_encoding" }
        envAuthEnv postReq 0 emptyStores =
      ({ status := 500, body := { error := some "invalid_point_encoding" } }, emptyStores) :=
  ⟨(C6_error_status.2.2.2.1 { trivPrims with dleqOkI := fun _ _ _ _ _ => false }
      envAuthEnv postReq 0 emptyStores "p1" 3 basePayload 0 0 0 0 0
      rfl rfl rfl rfl rfl rfl),
   (C6_error_status.2.2.2.2.2.2.2
      { trivPrims with decodePoint := fun _ => .error "invalid_point_encoding" }
      envAuthEnv postReq 0 emptyStores "invalid_point_encoding" rfl)⟩

/-! Claim C7: no store writes before the spend call. -/

/-- The spend phase always answers 200 or 429: a grace replay is 200 and
the spend path answers by `result.ok`. -/
theorem spendPhase_status (pr : Prims) (env : Env) (ctx : SpendCtx) (now : Nat)
    (st : Stores) :
    (spendPhase pr env ctx now st).1.status = 200 ∨
    (spendPhase pr env ctx now st).1.status = 429 := by
  simp only [spendPhase, doSpendAndRespond]
  repeat' split <;> try (first | (left; rfl) | (right; rfl) | simp)

/-- Vacuous corollary used to discharge the spend-phase case of the
pre-spend atomicity analysis. -/
theorem spendPhase_state_of_status (pr : Prims) (env : Env) (ctx : SpendCtx)
    (now : Nat) (st : Stores)
    (h200 : (spendPhase pr env ctx now st).1.status ≠ 200)
    (h429 : (spendPhase pr env ctx now st).1.status ≠ 429) :
    (spendPhase pr env ctx now st).2 = st := by
  rcases spendPhase_status pr env ctx now st with h | h
  · exact absurd h h200
  · exact absurd h h429

set_option maxHeartbeats 1000000 in
/-- Every `.ok` outcome of the verify phase whose status is neither 200
nor 429 carries the store unchanged. -/
theorem verifyPhase_state (pr : Prims) (env : Env) (req : Request) (now : Nat)
    (st : Stores) (pid : String) (lim : Nat) (pl : Payload) :
    ∀ r, verifyPhase pr env req now st pid lim pl = .ok r →
      r.1.status ≠ 200 → r.1.status ≠ 429 → r.2 = st := by
  intro r h h200 h429
  simp only [verifyPhase] at h
  repeat' split at h
  all_goals
    first
      | (cases h; rfl)
      | (cases h; exact spendPhase_state_of_status _ _ _ _ _ h200 h429)
      | (cases h)

/-- Every `.ok` outcome of the parse phase whose status is neither 200
nor 429 carries the store unchanged. -/
theorem parsePhase_state (pr : Prims) (env : Env) (req : Request) (now : Nat)
    (st : Stores) (pid : String) (lim : Nat) :
    ∀ r, parsePhase pr env req now st pid lim = .ok r →
      r.1.status ≠ 200 → r.1.status ≠ 429 → r.2 = st := by
  intro r h h200 h429
  simp only [parsePhase] at h
  split at h
  · cases h
  · exact verifyPhase_state _ _ _ _ _ _ _ _ r h h200 h429

set_option maxHeartbeats 1000000 in
/-- Every `.ok` outcome of the inner handler whose status is neither 200
nor 429 carries the store unchanged. -/
theorem fetchInner_state (pr : Prims) (env : Env) (req : Request) (now : Nat)
    (st : Stores) :
    ∀ r, fetchInner pr env req now st = .ok r →
      r.1.status ≠ 200 → r.1.status ≠ 429 → r.2 = st := by
  intro r h h200 h429
  simp only [fetchInner] at h
  repeat' split at h
  all_goals
    first
      | (cases h; rfl)
      | (cases h)
      | (exact parsePhase_state _ _ _ _ _ _ _ r h h200 h429)

/-- claim C7: whenever the handler's response is neither 200 nor 429 —
which covers every pre-spend failure (missing/invalid API key, body parse
failure, point decoding, π_I, d_client mismatch, origin
canonicalization, π_C), all of which return 401, 405 or 500 — the
persistent state is unchanged: no counter, IK record or grace entry is
created or modified. -/
theorem C7_pre_spend_atomic :
    ∀ (pr : Prims) (env : Env) (req : Request) (now : Nat) (st : Stores),
      (fetchHandler pr env req now st).1.status ≠ 200 →
      (fetchHandler pr env req now st).1.status ≠ 429 →
      (fetchHandler pr env req now st).2 = st := by
  intro pr env req now st h200 h429
  rcases hfi : fetchInner pr env req now st with e | r
  · simp [fetchHandler, hfi]
  · simp only [fetchHandler, hfi] at h200 h429 ⊢
    exact fetchInner_state pr env req now st r hfi h200 h429

/-- claim C7 (witness): a 405 (non-POST) response leaves the store
untouched. -/
theorem C7_witness :
    (fetchHandler trivPrims envAuthEnv
        { method := "PUT", pathname := "/verify", authorization := none,
          bodyText := "", payloadParse := .error "x" } 0 emptyStores).2 =
      emptyStores :=
  C7_pre_spend_atomic trivPrims envAuthEnv
    { method := "PUT", pathname := "/verify", authorization := none,
      bodyText := "", payloadParse := .error "x" } 0 emptyStores
    (by decide) (by decide)

/-! Claim C8: independence from the client-supplied epoch field. -/

/-- claim C8: two requests identical except for the presentation's
`epoch` field produce identical responses and identical final state: the
handler binds `epoch` when destructuring the payload but never uses it
(the server recomputes `epochDays` from the clock).  The raw body bytes
are held fixed; the parsed `epoch` value varies freely. -/
theorem C8_epoch_independent :
    ∀ (pr : Prims) (env : Env) (method pathname : String) (authz : Option String)
      (bodyText : String) (pl : Payload) (e1 e2 : Int) (now : Nat) (st : Stores),
      fetchHandler pr env
        { method := method, pathname := pathname, authorization := authz,
          bodyText := bodyText, payloadParse := .ok { pl with epoch := e1 } } now st =
      fetchHandler pr env
        { method := method, pathname := pathname, authorization := authz,
          bodyText := bodyText, payloadParse := .ok { pl with epoch := e2 } } now st := by
  intro pr env method pathname authz bodyText pl e1 e2 now st
  cases pl
  rfl

end Brass
